import Mathlib

/-!
Shallow embedding of the authentication / authorization / cache core of the
slodi backend (files `app/core/auth.py`, `app/core/cache.py`, and the role
enums in `app/models/{user,workspace,group}.py`), together with theorems
settling the specification claims about it.

Conventions of the embedding:
* Python enums become Lean inductive types; the string `value` of each enum
  member is kept via a `value` function, and the *declaration order* of the
  members in the source file via a `declIndex` function.
* `dict` rank tables become total Lean functions.
* The aiocache backend is modelled as a partial map from keys to stored
  values; `get(key, default=CACHE_MISS)` returning the default on an absent
  key becomes a `match` on the `Option`.
* Exceptions become `Except HTTPErr α`; an `HTTPErr` carries the HTTP status
  code and the `detail` string from the corresponding `HTTPException`.
* Network calls (JWKS fetch, /userinfo fetch) are passed in as explicit
  results (`Except Unit β`: `.error ()` is a transport failure such as
  `httpx.HTTPError`); functions that may perform them additionally return
  how many such calls they made, so that claims about call counts are
  statable.
-/

namespace Slodi

/-- `app/models/user.py`: `class Permissions(str, Enum)` with members
declared in the order admin, member, viewer. -/
inductive Permissions where
  | admin
  | member
  | viewer
deriving DecidableEq, Repr, Fintype

/-- The string value of each `Permissions` member. -/
def Permissions.value : Permissions → String
  | .admin => "admin"
  | .member => "member"
  | .viewer => "viewer"

/-- Position of each member in the source declaration order of `Permissions`. -/
def Permissions.declIndex : Permissions → Nat
  | .admin => 0
  | .member => 1
  | .viewer => 2

/-- `app/models/workspace.py`: `class WorkspaceRole(str, Enum)` with members
declared in the order owner, admin, editor, viewer. -/
inductive WorkspaceRole where
  | owner
  | admin
  | editor
  | viewer
deriving DecidableEq, Repr, Fintype

/-- The string value of each `WorkspaceRole` member. -/
def WorkspaceRole.value : WorkspaceRole → String
  | .owner => "owner"
  | .admin => "admin"
  | .editor => "editor"
  | .viewer => "viewer"

/-- Position of each member in the source declaration order of `WorkspaceRole`. -/
def WorkspaceRole.declIndex : WorkspaceRole → Nat
  | .owner => 0
  | .admin => 1
  | .editor => 2
  | .viewer => 3

/-- `app/models/group.py`: `class GroupRole(str, Enum)` with members declared
in the order owner, admin, editor, viewer. -/
inductive GroupRole where
  | owner
  | admin
  | editor
  | viewer
deriving DecidableEq, Repr, Fintype

/-- The string value of each `GroupRole` member. -/
def GroupRole.value : GroupRole → String
  | .owner => "owner"
  | .admin => "admin"
  | .editor => "editor"
  | .viewer => "viewer"

/-- Position of each member in the source declaration order of `GroupRole`. -/
def GroupRole.declIndex : GroupRole → Nat
  | .owner => 0
  | .admin => 1
  | .editor => 2
  | .viewer => 3

/-- `app/core/auth.py` lines 43-47: `_PERMISSION_RANK` dict. -/
def _PERMISSION_RANK : Permissions → Nat
  | .viewer => 0
  | .member => 1
  | .admin => 2

/-- `app/core/auth.py` lines 49-54: `_WORKSPACE_ROLE_RANK` dict. -/
def _WORKSPACE_ROLE_RANK : WorkspaceRole → Nat
  | .viewer => 0
  | .editor => 1
  | .admin => 2
  | .owner => 3

/-- `app/core/auth.py` lines 56-61: `_GROUP_ROLE_RANK` dict. -/
def _GROUP_ROLE_RANK : GroupRole → Nat
  | .viewer => 0
  | .editor => 1
  | .admin => 2
  | .owner => 3

/-- Lexicographic (code-point) comparison of character lists, the order
Python's `<` induces on the enum value strings; used to state that the rank
order is not string order. -/
def charListLt : List Char → List Char → Bool
  | [], [] => false
  | [], _ :: _ => true
  | _ :: _, [] => false
  | a :: as, b :: bs =>
    if a.toNat < b.toNat then true
    else if a.toNat = b.toNat then charListLt as bs
    else false

/-- Lexicographic comparison of two strings by code point. -/
def strValueLt (a b : String) : Bool :=
  charListLt a.data b.data

/-- An `HTTPException` as raised in the core: status code plus detail. -/
structure HTTPErr where
  status : Nat
  detail : String
deriving DecidableEq, Repr

/-!
## Membership cache (`app/core/cache.py`)

The aiocache backend stores pickled Python objects; the membership cache
stores either a `WorkspaceRole` or the process-local `_NON_MEMBER` sentinel
(line 21) — never `None`, because aiocache's base `get` returns the `default`
whenever the stored value is `None`.  `get(key, default=CACHE_MISS)` returns
the distinct `CACHE_MISS` sentinel (line 16) exactly when the key is absent.
-/

/-- The value physically stored in the membership cache backend: either the
`_NON_MEMBER` sentinel or a role (`cache.py` line 67). -/
inductive StoredMembership where
  | nonMember
  | role (r : WorkspaceRole)
deriving DecidableEq, Repr

/-- The backend map of the membership namespace: key `(user_id, workspace_id)`
to the stored value, absent keys being `none`. -/
def MembershipBackend : Type := Nat × Nat → Option StoredMembership

/-- What `WorkspaceMembershipCache.get` can return (`cache.py` lines 56-62):
the `CACHE_MISS` sentinel, `None` (confirmed non-member), or a role. -/
inductive MembershipGetResult where
  | cacheMiss
  | confirmedNone
  | role (r : WorkspaceRole)
deriving DecidableEq, Repr

/-- `cache.py` lines 56-62, `WorkspaceMembershipCache.get`:
`value = await self._cache.get(key, default=CACHE_MISS)`; if the value is the
`_NON_MEMBER` sentinel return `None`, otherwise return the value. -/
def WorkspaceMembershipCache.get (backend : MembershipBackend)
    (user_id workspace_id : Nat) : MembershipGetResult :=
  match backend (user_id, workspace_id) with
  | none => .cacheMiss
  | some .nonMember => .confirmedNone
  | some (.role r) => .role r

/-- `cache.py` lines 64-68, `WorkspaceMembershipCache.set`: store `_NON_MEMBER`
in place of `None`, else the role itself, under key `(user_id, workspace_id)`. -/
def WorkspaceMembershipCache.set (backend : MembershipBackend)
    (user_id workspace_id : Nat) (role : Option WorkspaceRole) :
    MembershipBackend :=
  fun k =>
    if k = (user_id, workspace_id) then
      some (match role with
            | none => .nonMember
            | some r => .role r)
    else backend k

/-- `cache.py` lines 70-71, `WorkspaceMembershipCache.invalidate`: delete the
key. -/
def WorkspaceMembershipCache.invalidate (backend : MembershipBackend)
    (user_id workspace_id : Nat) : MembershipBackend :=
  fun k => if k = (user_id, workspace_id) then none else backend k

/-- The empty membership backend (no key ever set). -/
def MembershipBackend.empty : MembershipBackend := fun _ => none

/-!
## JWKS cache and signing-key resolution (`app/core/auth.py` lines 69-227)
-/

/-- An RSA key from the JWKS, identified by its `kid`; the projected fields
`("kty", "kid", "use", "n", "e")` of `_find_rsa_key` (line 163) are abstracted
into `kid` plus opaque key material. -/
structure RsaKey where
  kid : String
  material : Nat
deriving DecidableEq, Repr

/-- A JWKS response: its `"keys"` list. -/
def Jwks : Type := List RsaKey

/-- State of `JWKSCache` (`auth.py` lines 83-93): the cached JWKS (none before
the first fetch, in which case `_fetched_at` is also `None` and `_is_expired`
holds) and whether the TTL has elapsed since the last fetch. -/
structure JWKSState where
  jwks : Option Jwks
  ttlExpired : Bool

/-- `auth.py` lines 89-93, `JWKSCache._is_expired`: true when nothing was ever
fetched or the TTL has elapsed. -/
def JWKSCache.isExpired (st : JWKSState) : Bool :=
  st.jwks.isNone || st.ttlExpired

/-- `auth.py` lines 95-114, `JWKSCache._fetch`: the network fetch either
yields a JWKS or fails with `httpx.HTTPError`, which is re-raised as an
`HTTPException` with status 503. -/
def JWKSCache.fetch (network : Except Unit Jwks) : Except HTTPErr Jwks :=
  match network with
  | .ok j => .ok j
  | .error _ => .error ⟨503, "Unable to fetch Auth0 public keys"⟩

/-- `auth.py` lines 116-132, `JWKSCache.get`: refresh via `_fetch` when forced
or expired (recording the new JWKS and fetch time), else return the cached
JWKS.  The second component is the updated cache state, the third the number
of `_fetch` calls performed (0 or 1). -/
def JWKSCache.get (network : Except Unit Jwks) (st : JWKSState)
    (force_refresh : Bool) : Except HTTPErr (Jwks × JWKSState) × Nat :=
  if force_refresh || JWKSCache.isExpired st then
    match JWKSCache.fetch network with
    | .ok j => (.ok (j, ⟨some j, false⟩), 1)
    | .error e => (.error e, 1)
  else
    -- reachable only with `st.jwks = some _` since `isExpired` covers `none`
    (.ok (st.jwks.getD [], st), 0)

/-- `auth.py` lines 159-164, `_find_rsa_key`: first key whose `kid` matches. -/
def _find_rsa_key (jwks : Jwks) (kid : String) : Option RsaKey :=
  match jwks with
  | [] => none
  | k :: rest => if k.kid = kid then some k else _find_rsa_key rest kid

/-- `auth.py` lines 214-227, the signing-key resolution portion of
`verify_auth0_token`: first attempt with the (possibly cached) JWKS; if the
`kid` is not found, `get(force_refresh=True)` once and retry the lookup; if
still not found, raise 401 "Unable to find appropriate signing key".  Returns
the outcome together with the final cache state and the total number of
`_fetch` calls performed. -/
def resolveSigningKey (network : Except Unit Jwks) (st : JWKSState)
    (kid : String) : Except HTTPErr (RsaKey × JWKSState) × Nat :=
  match JWKSCache.get network st false with
  | (.error e, n1) => (.error e, n1)
  | (.ok (jwks1, st1), n1) =>
    match _find_rsa_key jwks1 kid with
    | some k => (.ok (k, st1), n1)
    | none =>
      match JWKSCache.get network st1 true with
      | (.error e, n2) => (.error e, n1 + n2)
      | (.ok (jwks2, st2), n2) =>
        match _find_rsa_key jwks2 kid with
        | some k => (.ok (k, st2), n1 + n2)
        | none =>
          (.error ⟨401, "Unable to find appropriate signing key"⟩, n1 + n2)

/-!
## Identity resolution (`app/core/auth.py` lines 282-377, `get_current_user`)
-/

/-- The fields of `UserOut` the core reads: internal id, external subject id,
email, name, global permission. -/
structure UserOut where
  id : Nat
  auth0_id : String
  email : String
  name : String
  permissions : Permissions
deriving DecidableEq, Repr

/-- `app/schemas/user.py` lines 31-46: the `UserCreate` payload; `permissions`
defaults to `Permissions.viewer` in `UserBase`. -/
structure UserCreate where
  auth0_id : String
  email : String
  name : String
  permissions : Permissions
deriving DecidableEq, Repr

/-- `UserCreate(auth0_id=..., email=..., name=...)` as called at `auth.py`
line 367: `permissions` takes the `UserBase` default `Permissions.viewer`. -/
def mkUserCreate (auth0_id email name : String) : UserCreate :=
  ⟨auth0_id, email, name, Permissions.viewer⟩

/-- The token-claim fields `get_current_user` reads from the verified
`TokenPayload`: `sub`, optional `email`, optional `name`. -/
structure TokenClaims where
  sub : String
  email : Option String
  name : Option String

/-- The fields of the `/userinfo` JSON read at `auth.py` lines 349-351. -/
structure Userinfo where
  email : Option String
  name : Option String

/-- Python truthiness of an optional string: `if not email:` also treats an
empty string as missing. -/
def strFalsy : Option String → Bool
  | none => true
  | some s => s = ""

/-- The user-identity cache namespace: subject id to cached `UserOut`
(`cache.py` lines 36-49; `None` is never stored for a user). -/
def UserCacheState : Type := String → Option UserOut

/-- `cache.py` lines 45-46, `UserCache.set`. -/
def UserCache.set (c : UserCacheState) (auth0_id : String) (u : UserOut) :
    UserCacheState :=
  fun k => if k = auth0_id then some u else c k

/-- Outcome of the identity-resolution portion of `get_current_user`
(`auth.py` lines 318-377), instrumented for observability: the result, the
user-cache state afterwards, the number of `/userinfo` calls made, and the
`UserCreate` payload passed to `user_service.create` (if creation was
attempted). -/
structure ResolveOutcome where
  result : Except HTTPErr UserOut
  cache : UserCacheState
  userinfoCalls : Nat
  createdWith : Option UserCreate

/-- `auth.py` lines 318-377, the identity-resolution logic of
`get_current_user` after token verification: cache fast path; DB lookup and
cache-populate; on total miss obtain email/name (from claims, else one
`/userinfo` call), fall name back to email, create the user with the
`UserCreate` defaults, cache and return it.  `db` is
`UserService.get_by_auth0_id`; `userinfo` is the `/userinfo` network result
(`.error ()` is `httpx.HTTPError`); `create` is `user_service.create`. -/
def get_current_user (payload : TokenClaims) (ucache : UserCacheState)
    (db : String → Option UserOut) (userinfo : Except Unit Userinfo)
    (create : UserCreate → Option UserOut) : ResolveOutcome :=
  let auth0_id := payload.sub
  match ucache auth0_id with
  | some cached_user => ⟨.ok cached_user, ucache, 0, none⟩
  | none =>
    match db auth0_id with
    | some user => ⟨.ok user, UserCache.set ucache auth0_id user, 0, none⟩
    | none =>
      -- new user: need email & name
      let email0 := payload.email
      let name0 := payload.name
      let fetched : Except HTTPErr (Option String × Option String) × Nat :=
        if strFalsy email0 then
          match userinfo with
          | .ok ui =>
            (.ok (ui.email, if strFalsy name0 then ui.name else name0), 1)
          | .error _ =>
            (.error ⟨401, "Failed to fetch user info from Auth0"⟩, 1)
        else (.ok (email0, name0), 0)
      match fetched with
      | (.error e, n) => ⟨.error e, ucache, n, none⟩
      | (.ok (email1, name1), n) =>
        if strFalsy email1 then
          ⟨.error ⟨401, "Unable to retrieve user email"⟩, ucache, n, none⟩
        else
          let email := email1.getD ""
          let name := if strFalsy name1 then email else name1.getD ""
          let user_data := mkUserCreate auth0_id email name
          match create user_data with
          | none =>
            ⟨.error ⟨500, "Failed to create user"⟩, ucache, n, some user_data⟩
          | some user =>
            ⟨.ok user, UserCache.set ucache auth0_id user, n, some user_data⟩

/-!
## Permission guard and resource-level access checks
(`app/core/auth.py` lines 380-524)
-/

/-- `auth.py` lines 392-400, the `_check` closure returned by
`require_permission(minimum)`: deny with 403 when the caller's global
permission rank is below `minimum`'s rank, else return the caller. -/
def require_permission_check (minimum : Permissions) (current_user : UserOut) :
    Except HTTPErr UserOut :=
  if _PERMISSION_RANK current_user.permissions < _PERMISSION_RANK minimum then
    .error ⟨403, "Requires " ++ minimum.value ++ " permission or higher."⟩
  else
    .ok current_user

/-- The membership table consulted by `WorkspaceService.find_user_role`:
`(workspace_id, user_id) ↦ role or None`. -/
def MembershipDb : Type := Nat → Nat → Option WorkspaceRole

/-- `auth.py` lines 410-419, `_get_workspace_role`: try the membership cache;
on `CACHE_MISS` fall back to `find_user_role` and populate the cache (also
when the answer is `None`).  Returns the role (or `none` for a non-member)
and the membership-cache state afterwards. -/
def _get_workspace_role (workspace_id user_id : Nat)
    (cache : MembershipBackend) (db : MembershipDb) :
    Option WorkspaceRole × MembershipBackend :=
  match WorkspaceMembershipCache.get cache user_id workspace_id with
  | .confirmedNone => (none, cache)
  | .role r => (some r, cache)
  | .cacheMiss =>
    let role := db workspace_id user_id
    (role, WorkspaceMembershipCache.set cache user_id workspace_id role)

/-- `auth.py` lines 422-453, `check_workspace_access`: platform admins pass
unconditionally; otherwise resolve the caller's workspace role; no membership
raises 404 (when `hide_from_non_members`) or 403; a role ranked below
`minimum_role` raises 403.  Returns the outcome and the membership-cache
state afterwards. -/
def check_workspace_access (workspace_id : Nat) (current_user : UserOut)
    (cache : MembershipBackend) (db : MembershipDb)
    (minimum_role : WorkspaceRole) (hide_from_non_members : Bool) :
    Except HTTPErr Unit × MembershipBackend :=
  if current_user.permissions = Permissions.admin then
    (.ok (), cache)
  else
    match _get_workspace_role workspace_id current_user.id cache db with
    | (none, cache1) =>
      if hide_from_non_members then (.error ⟨404, "Not found"⟩, cache1)
      else (.error ⟨403, "Not a workspace member"⟩, cache1)
    | (some role, cache1) =>
      if _WORKSPACE_ROLE_RANK role < _WORKSPACE_ROLE_RANK minimum_role then
        (.error ⟨403, "Requires " ++ minimum_role.value ++ " role or higher"⟩,
         cache1)
      else (.ok (), cache1)

/-- `auth.py` lines 456-497, `check_program_edit_access`: platform admins pass
unconditionally; otherwise resolve the caller's workspace role; no membership
raises 404 (when `hide_from_non_members`) or 403; then allow when the role
ranks at least admin, or the caller is the author and the role ranks at least
editor; otherwise 403. -/
def check_program_edit_access (workspace_id : Nat) (author_id : Option Nat)
    (current_user : UserOut) (cache : MembershipBackend) (db : MembershipDb)
    (hide_from_non_members : Bool) :
    Except HTTPErr Unit × MembershipBackend :=
  if current_user.permissions = Permissions.admin then
    (.ok (), cache)
  else
    match _get_workspace_role workspace_id current_user.id cache db with
    | (none, cache1) =>
      if hide_from_non_members then (.error ⟨404, "Not found"⟩, cache1)
      else (.error ⟨403, "Not a workspace member"⟩, cache1)
    | (some role, cache1) =>
      let role_rank := _WORKSPACE_ROLE_RANK role
      let is_author := author_id.isSome ∧ some current_user.id = author_id
      let has_admin := role_rank ≥ _WORKSPACE_ROLE_RANK WorkspaceRole.admin
      let has_editor := role_rank ≥ _WORKSPACE_ROLE_RANK WorkspaceRole.editor
      if has_admin ∨ (is_author ∧ has_editor) then (.ok (), cache1)
      else
        (.error ⟨403, "Requires admin role, or editor role as the author"⟩,
         cache1)

/-- `auth.py` lines 500-524, `check_group_access`: platform admins pass; no
group membership raises 403; a membership role ranked below `minimum_role`
raises 403.  Group membership is looked up directly (no cache layer). -/
def check_group_access (group_id : Nat) (current_user : UserOut)
    (db : Nat → Nat → Option GroupRole) (minimum_role : GroupRole) :
    Except HTTPErr Unit :=
  if current_user.permissions = Permissions.admin then
    .ok ()
  else
    match db group_id current_user.id with
    | none => .error ⟨403, "Not a group member"⟩
    | some role =>
      if _GROUP_ROLE_RANK role < _GROUP_ROLE_RANK minimum_role then
        .error ⟨403, "Requires " ++ minimum_role.value ++ " role or higher"⟩
      else .ok ()

/-!
## Theorems for the specification claims
-/

/-- C1: after `set(u, w, None)` a `get(u, w)` returns `None` (confirmed
non-member); a `get` on a never-set pair returns the `CACHE_MISS` sentinel;
these two results are distinguishable for every pair of keys; and after
`set(u, w, r)` with a role `r`, `get(u, w)` returns exactly `r`. -/
theorem membership_cache_negative_distinction
    (backend : MembershipBackend) (u w : Nat) :
    WorkspaceMembershipCache.get
        (WorkspaceMembershipCache.set backend u w none) u w
      = MembershipGetResult.confirmedNone
    ∧ (∀ u' w' : Nat, backend (u', w') = none →
        WorkspaceMembershipCache.get backend u' w'
          = MembershipGetResult.cacheMiss)
    ∧ MembershipGetResult.confirmedNone ≠ MembershipGetResult.cacheMiss
    ∧ ∀ r : WorkspaceRole,
        WorkspaceMembershipCache.get
            (WorkspaceMembershipCache.set backend u w (some r)) u w
          = MembershipGetResult.role r := by
  refine ⟨?_, ?_, by simp, ?_⟩
  · simp [WorkspaceMembershipCache.get, WorkspaceMembershipCache.set]
  · intro u' w' h
    simp [WorkspaceMembershipCache.get, h]
  · intro r
    simp [WorkspaceMembershipCache.get, WorkspaceMembershipCache.set]

theorem membership_cache_negative_distinction_witness :
    WorkspaceMembershipCache.get
        (WorkspaceMembershipCache.set MembershipBackend.empty 1 2 none) 1 2
      = MembershipGetResult.confirmedNone
    ∧ WorkspaceMembershipCache.get MembershipBackend.empty 3 4
        = MembershipGetResult.cacheMiss
    ∧ WorkspaceMembershipCache.get
        (WorkspaceMembershipCache.set MembershipBackend.empty 1 2
          (some WorkspaceRole.editor)) 1 2
      = MembershipGetResult.role WorkspaceRole.editor := by
  obtain ⟨h1, h2, _, h4⟩ :=
    membership_cache_negative_distinction MembershipBackend.empty 1 2
  exact ⟨h1, h2 3 4 rfl, h4 WorkspaceRole.editor⟩

/-- C5: a caller with global admin permission passes `check_workspace_access`
for every workspace, every `minimum_role` (including the highest) and every
`hide_from_non_members` flag, with no membership lookup: the outcome is `ok`
and the membership cache is returned unchanged, for every membership table —
in particular one recording no membership at all. -/
theorem check_workspace_access_platform_admin_bypass
    (workspace_id : Nat) (current_user : UserOut) (cache : MembershipBackend)
    (db : MembershipDb) (minimum_role : WorkspaceRole)
    (hide_from_non_members : Bool)
    (h : current_user.permissions = Permissions.admin) :
    check_workspace_access workspace_id current_user cache db minimum_role
        hide_from_non_members
      = (.ok (), cache) := by
  simp [check_workspace_access, h]

theorem check_workspace_access_platform_admin_bypass_witness :
    check_workspace_access 5 ⟨1, "s", "e", "n", Permissions.admin⟩
        MembershipBackend.empty (fun _ _ => none) WorkspaceRole.owner true
      = (.ok (), MembershipBackend.empty) :=
  check_workspace_access_platform_admin_bypass 5
    ⟨1, "s", "e", "n", Permissions.admin⟩ MembershipBackend.empty
    (fun _ _ => none) WorkspaceRole.owner true rfl

/-- C7: the guard produced by `require_permission(b)` accepts a caller whose
permission rank is at least `b`'s rank, returning the caller unchanged, and
denies with a 403 Forbidden whenever the caller's rank is below `b`'s. -/
theorem require_permission_rank_monotone (b : Permissions) (u : UserOut) :
    (_PERMISSION_RANK u.permissions ≥ _PERMISSION_RANK b →
      require_permission_check b u = .ok u)
    ∧ (_PERMISSION_RANK u.permissions < _PERMISSION_RANK b →
      require_permission_check b u
        = .error ⟨403, "Requires " ++ b.value ++ " permission or higher."⟩) := by
  constructor
  · intro h
    simp [require_permission_check, Nat.not_lt.mpr h]
  · intro h
    simp [require_permission_check, h]

theorem require_permission_rank_monotone_witness :
    require_permission_check Permissions.member
        ⟨1, "s", "e", "n", Permissions.admin⟩
      = .ok ⟨1, "s", "e", "n", Permissions.admin⟩
    ∧ require_permission_check Permissions.member
        ⟨1, "s", "e", "n", Permissions.viewer⟩
      = .error ⟨403, "Requires member permission or higher."⟩ :=
  ⟨(require_permission_rank_monotone Permissions.member
      ⟨1, "s", "e", "n", Permissions.admin⟩).1 (by decide),
   (require_permission_rank_monotone Permissions.member
      ⟨1, "s", "e", "n", Permissions.viewer⟩).2 (by decide)⟩

/-- C8: a non-admin caller whose workspace role resolves to `None` (no
membership) gets 404 Not Found from `check_workspace_access` when
`hide_from_non_members` is true and 403 Forbidden when it is false, and the
two outcomes are distinct. -/
theorem check_workspace_access_non_member_errors
    (workspace_id : Nat) (current_user : UserOut) (cache : MembershipBackend)
    (db : MembershipDb) (minimum_role : WorkspaceRole)
    (hadm : current_user.permissions ≠ Permissions.admin)
    (hrole : (_get_workspace_role workspace_id current_user.id cache db).1
      = none) :
    (check_workspace_access workspace_id current_user cache db minimum_role
        true).1 = .error ⟨404, "Not found"⟩
    ∧ (check_workspace_access workspace_id current_user cache db minimum_role
        false).1 = .error ⟨403, "Not a workspace member"⟩
    ∧ (⟨404, "Not found"⟩ : HTTPErr) ≠ ⟨403, "Not a workspace member"⟩ := by
  have hsplit : _get_workspace_role workspace_id current_user.id cache db
      = (none, (_get_workspace_role workspace_id current_user.id cache db).2)
    := by rw [← hrole]
  refine ⟨?_, ?_, by decide⟩ <;>
    · simp only [check_workspace_access, if_neg hadm]
      rw [hsplit]
      simp

theorem check_workspace_access_non_member_errors_witness :
    (check_workspace_access 5 ⟨1, "s", "e", "n", Permissions.viewer⟩
        MembershipBackend.empty (fun _ _ => none) WorkspaceRole.viewer true).1
      = .error ⟨404, "Not found"⟩
    ∧ (check_workspace_access 5 ⟨1, "s", "e", "n", Permissions.viewer⟩
        MembershipBackend.empty (fun _ _ => none) WorkspaceRole.viewer
        false).1
      = .error ⟨403, "Not a workspace member"⟩ := by
  obtain ⟨h1, h2, _⟩ := check_workspace_access_non_member_errors 5
    ⟨1, "s", "e", "n", Permissions.viewer⟩ MembershipBackend.empty
    (fun _ _ => none) WorkspaceRole.viewer (by decide) rfl
  exact ⟨h1, h2⟩

/-- C9: each rank mapping is injective and totally ordered from least to most
privileged (viewer < member < admin for global permissions; viewer < editor <
admin < owner for workspace and group roles); the rank order is neither the
enum declaration order nor string comparison of the enum values, each shown
by a pair the orders disagree on. -/
theorem role_rank_hierarchies :
    (_PERMISSION_RANK Permissions.viewer < _PERMISSION_RANK Permissions.member
      ∧ _PERMISSION_RANK Permissions.member
          < _PERMISSION_RANK Permissions.admin)
    ∧ (_WORKSPACE_ROLE_RANK WorkspaceRole.viewer
          < _WORKSPACE_ROLE_RANK WorkspaceRole.editor
      ∧ _WORKSPACE_ROLE_RANK WorkspaceRole.editor
          < _WORKSPACE_ROLE_RANK WorkspaceRole.admin
      ∧ _WORKSPACE_ROLE_RANK WorkspaceRole.admin
          < _WORKSPACE_ROLE_RANK WorkspaceRole.owner)
    ∧ (_GROUP_ROLE_RANK GroupRole.viewer < _GROUP_ROLE_RANK GroupRole.editor
      ∧ _GROUP_ROLE_RANK GroupRole.editor < _GROUP_ROLE_RANK GroupRole.admin
      ∧ _GROUP_ROLE_RANK GroupRole.admin < _GROUP_ROLE_RANK GroupRole.owner)
    ∧ (∀ a b : Permissions, _PERMISSION_RANK a = _PERMISSION_RANK b → a = b)
    ∧ (∀ a b : WorkspaceRole,
        _WORKSPACE_ROLE_RANK a = _WORKSPACE_ROLE_RANK b → a = b)
    ∧ (∀ a b : GroupRole, _GROUP_ROLE_RANK a = _GROUP_ROLE_RANK b → a = b)
    ∧ (∀ a b : Permissions, _PERMISSION_RANK a < _PERMISSION_RANK b
        ∨ _PERMISSION_RANK a = _PERMISSION_RANK b
        ∨ _PERMISSION_RANK b < _PERMISSION_RANK a)
    ∧ (Permissions.declIndex Permissions.admin
          < Permissions.declIndex Permissions.viewer
      ∧ _PERMISSION_RANK Permissions.viewer
          < _PERMISSION_RANK Permissions.admin)
    ∧ (WorkspaceRole.declIndex WorkspaceRole.owner
          < WorkspaceRole.declIndex WorkspaceRole.viewer
      ∧ _WORKSPACE_ROLE_RANK WorkspaceRole.viewer
          < _WORKSPACE_ROLE_RANK WorkspaceRole.owner)
    ∧ (strValueLt (Permissions.value Permissions.admin)
          (Permissions.value Permissions.viewer) = true
      ∧ _PERMISSION_RANK Permissions.viewer
          < _PERMISSION_RANK Permissions.admin)
    ∧ (strValueLt (WorkspaceRole.value WorkspaceRole.admin)
          (WorkspaceRole.value WorkspaceRole.viewer) = true
      ∧ _WORKSPACE_ROLE_RANK WorkspaceRole.viewer
          < _WORKSPACE_ROLE_RANK WorkspaceRole.admin) := by
  decide

theorem role_rank_hierarchies_witness :
    Permissions.member = Permissions.member
    ∧ WorkspaceRole.editor = WorkspaceRole.editor := by
  obtain ⟨_, _, _, hp, hw, _⟩ := role_rank_hierarchies
  exact ⟨hp Permissions.member Permissions.member rfl,
    hw WorkspaceRole.editor WorkspaceRole.editor rfl⟩

/-- C10: with `hide_from_non_members = true`, the 404 masking applies only to
non-members: a non-admin caller whose workspace role resolves to some role `r`
below the required threshold receives 403 Forbidden, never 404 Not Found,
both from `check_workspace_access` and from `check_program_edit_access`. -/
theorem hide_from_non_members_only_masks_non_members
    (workspace_id : Nat) (author_id : Option Nat) (current_user : UserOut)
    (cache : MembershipBackend) (db : MembershipDb)
    (minimum_role : WorkspaceRole) (r : WorkspaceRole)
    (hadm : current_user.permissions ≠ Permissions.admin)
    (hrole : (_get_workspace_role workspace_id current_user.id cache db).1
      = some r) :
    (_WORKSPACE_ROLE_RANK r < _WORKSPACE_ROLE_RANK minimum_role →
      (check_workspace_access workspace_id current_user cache db minimum_role
          true).1
        = .error ⟨403, "Requires " ++ minimum_role.value ++ " role or higher"⟩)
    ∧ (¬(_WORKSPACE_ROLE_RANK r ≥ _WORKSPACE_ROLE_RANK WorkspaceRole.admin
          ∨ (author_id = some current_user.id
            ∧ _WORKSPACE_ROLE_RANK r
                ≥ _WORKSPACE_ROLE_RANK WorkspaceRole.editor)) →
      (check_program_edit_access workspace_id author_id current_user cache db
          true).1
        = .error ⟨403, "Requires admin role, or editor role as the author"⟩)
    := by
  have hsplit : _get_workspace_role workspace_id current_user.id cache db
      = (some r, (_get_workspace_role workspace_id current_user.id cache
          db).2) := by
    rw [← hrole]
  constructor
  · intro hlt
    simp only [check_workspace_access, if_neg hadm]
    rw [hsplit]
    simp [hlt]
  · intro hden
    simp only [check_program_edit_access, if_neg hadm]
    rw [hsplit]
    have hnc : ¬(_WORKSPACE_ROLE_RANK r
          ≥ _WORKSPACE_ROLE_RANK WorkspaceRole.admin
        ∨ ((author_id.isSome ∧ some current_user.id = author_id)
          ∧ _WORKSPACE_ROLE_RANK r
              ≥ _WORKSPACE_ROLE_RANK WorkspaceRole.editor)) := by
      rintro (h2 | ⟨⟨_, heq⟩, h1⟩)
      · exact hden (Or.inl h2)
      · exact hden (Or.inr ⟨heq.symm, h1⟩)
    simp only [ge_iff_le] at hnc ⊢
    simp [hnc]

theorem hide_from_non_members_only_masks_non_members_witness :
    (check_workspace_access 1 ⟨7, "s", "e", "n", Permissions.viewer⟩
        (WorkspaceMembershipCache.set MembershipBackend.empty 7 1
          (some WorkspaceRole.viewer))
        (fun _ _ => none) WorkspaceRole.admin true).1
      = .error ⟨403, "Requires admin role or higher"⟩
    ∧ (check_program_edit_access 1 (some 99)
        ⟨7, "s", "e", "n", Permissions.viewer⟩
        (WorkspaceMembershipCache.set MembershipBackend.empty 7 1
          (some WorkspaceRole.viewer))
        (fun _ _ => none) true).1
      = .error ⟨403, "Requires admin role, or editor role as the author"⟩ := by
  obtain ⟨h1, h2⟩ := hide_from_non_members_only_masks_non_members 1 (some 99)
    ⟨7, "s", "e", "n", Permissions.viewer⟩
    (WorkspaceMembershipCache.set MembershipBackend.empty 7 1
      (some WorkspaceRole.viewer))
    (fun _ _ => none) WorkspaceRole.admin WorkspaceRole.viewer (by decide)
    (by rfl)
  exact ⟨h1 (by decide), h2 (by decide)⟩

/-- C3: `check_program_edit_access` allows a caller iff the caller is a
platform admin, or the resolved workspace role ranks at least admin, or the
caller is the program's author (`author_id` non-null and equal to the caller
id) with a role ranking at least editor; with the default
`hide_from_non_members = false` every denial is a 403 Forbidden; in
particular a workspace editor who is not the author is denied, the same
editor as author is allowed, and a workspace admin who is not the author is
allowed. -/
theorem check_program_edit_access_policy :
    (∀ (workspace_id : Nat) (author_id : Option Nat) (current_user : UserOut)
      (cache : MembershipBackend) (db : MembershipDb) (hide : Bool),
      (check_program_edit_access workspace_id author_id current_user cache db
          hide).1 = .ok ()
        ↔ (current_user.permissions = Permissions.admin
          ∨ ∃ r, (_get_workspace_role workspace_id current_user.id cache
                db).1 = some r
            ∧ (_WORKSPACE_ROLE_RANK r
                  ≥ _WORKSPACE_ROLE_RANK WorkspaceRole.admin
              ∨ (author_id = some current_user.id
                ∧ _WORKSPACE_ROLE_RANK r
                    ≥ _WORKSPACE_ROLE_RANK WorkspaceRole.editor))))
    ∧ (∀ (workspace_id : Nat) (author_id : Option Nat)
      (current_user : UserOut) (cache : MembershipBackend)
      (db : MembershipDb),
      (check_program_edit_access workspace_id author_id current_user cache db
          false).1 = .ok ()
      ∨ ∃ d, (check_program_edit_access workspace_id author_id current_user
          cache db false).1 = .error ⟨403, d⟩)
    ∧ (check_program_edit_access 1 (some 99)
        ⟨7, "s", "e", "n", Permissions.viewer⟩
        (WorkspaceMembershipCache.set MembershipBackend.empty 7 1
          (some WorkspaceRole.editor)) (fun _ _ => none) false).1
      = .error ⟨403, "Requires admin role, or editor role as the author"⟩
    ∧ (check_program_edit_access 1 (some 7)
        ⟨7, "s", "e", "n", Permissions.viewer⟩
        (WorkspaceMembershipCache.set MembershipBackend.empty 7 1
          (some WorkspaceRole.editor)) (fun _ _ => none) false).1
      = .ok ()
    ∧ (check_program_edit_access 1 (some 99)
        ⟨7, "s", "e", "n", Permissions.viewer⟩
        (WorkspaceMembershipCache.set MembershipBackend.empty 7 1
          (some WorkspaceRole.admin)) (fun _ _ => none) false).1
      = .ok () := by
  have main : ∀ (workspace_id : Nat) (author_id : Option Nat)
      (current_user : UserOut) (cache : MembershipBackend) (db : MembershipDb)
      (hide : Bool),
      (check_program_edit_access workspace_id author_id current_user cache db
          hide).1 = .ok ()
        ↔ (current_user.permissions = Permissions.admin
          ∨ ∃ r, (_get_workspace_role workspace_id current_user.id cache
                db).1 = some r
            ∧ (_WORKSPACE_ROLE_RANK r
                  ≥ _WORKSPACE_ROLE_RANK WorkspaceRole.admin
              ∨ (author_id = some current_user.id
                ∧ _WORKSPACE_ROLE_RANK r
                    ≥ _WORKSPACE_ROLE_RANK WorkspaceRole.editor)))
    := by
    intro wid aid cu cache db hide
    by_cases hadm : cu.permissions = Permissions.admin
    · simp [check_program_edit_access, hadm]
    · simp only [check_program_edit_access, if_neg hadm]
      rcases hpair : _get_workspace_role wid cu.id cache db with ⟨ro, c2⟩
      rcases ro with _ | r
      · constructor
        · intro h
          exfalso
          cases hide <;> simp at h
        · rintro (h | ⟨r, hr, _⟩)
          · exact absurd h hadm
          · simp at hr
      · by_cases hc : _WORKSPACE_ROLE_RANK r
              ≥ _WORKSPACE_ROLE_RANK WorkspaceRole.admin
            ∨ ((aid.isSome ∧ some cu.id = aid)
              ∧ _WORKSPACE_ROLE_RANK r
                  ≥ _WORKSPACE_ROLE_RANK WorkspaceRole.editor)
        · constructor
          · intro _
            refine Or.inr ⟨r, rfl, ?_⟩
            rcases hc with h2 | ⟨⟨_, heq⟩, h1⟩
            · exact Or.inl h2
            · exact Or.inr ⟨heq.symm, h1⟩
          · intro _
            simp [hc]
        · constructor
          · intro h
            exfalso
            simp [hc] at h
          · rintro (h | ⟨r', hr', hd⟩)
            · exact absurd h hadm
            · exfalso
              simp only [Prod.fst] at hr'
              have hrr : r = r' := by
                simpa using hr'
              subst hrr
              apply hc
              rcases hd with h2 | ⟨ha, h1⟩
              · exact Or.inl h2
              · exact Or.inr ⟨⟨by simp [ha], by rw [ha]⟩, h1⟩
  refine ⟨main, ?_, by rfl, by rfl, by rfl⟩
  intro wid aid cu cache db
  by_cases hadm : cu.permissions = Permissions.admin
  · exact Or.inl (by simp [check_program_edit_access, hadm])
  · simp only [check_program_edit_access, if_neg hadm]
    rcases hpair : _get_workspace_role wid cu.id cache db with ⟨ro, c2⟩
    rcases ro with _ | r
    · exact Or.inr ⟨"Not a workspace member", by simp⟩
    · by_cases hc : _WORKSPACE_ROLE_RANK r
            ≥ _WORKSPACE_ROLE_RANK WorkspaceRole.admin
          ∨ ((aid.isSome ∧ some cu.id = aid)
            ∧ _WORKSPACE_ROLE_RANK r
                ≥ _WORKSPACE_ROLE_RANK WorkspaceRole.editor)
      · exact Or.inl (by simp [hc])
      · exact Or.inr ⟨"Requires admin role, or editor role as the author",
          by simp [hc]⟩

/-- C4: when a token's `kid` is absent from the currently cached signing-key
set (cache fresh, so the first `get` performs no fetch), `verify` forces
exactly one key-set refresh (`_fetch` is called exactly once) and retries the
lookup once against the fetched set: if the `kid` is present there the
matched key is returned, and if it is still absent the outcome is the 401
"Unable to find appropriate signing key" failure with no further refresh. -/
theorem unknown_kid_single_forced_refresh
    (st : JWKSState) (cachedJwks freshJwks : Jwks) (kid : String)
    (hfresh : JWKSCache.isExpired st = false)
    (hcache : st.jwks = some cachedJwks)
    (habsent : _find_rsa_key cachedJwks kid = none) :
    (resolveSigningKey (.ok freshJwks) st kid).2 = 1
    ∧ (_find_rsa_key freshJwks kid = none →
        (resolveSigningKey (.ok freshJwks) st kid).1
          = .error ⟨401, "Unable to find appropriate signing key"⟩)
    ∧ (∀ k, _find_rsa_key freshJwks kid = some k →
        (resolveSigningKey (.ok freshJwks) st kid).1
          = .ok (k, ⟨some freshJwks, false⟩))
    ∧ (∀ st' : JWKSState,
        (resolveSigningKey (.ok freshJwks) st' kid).2 ≤ 2) := by
  have h1 : JWKSCache.get (.ok freshJwks) st false
      = (.ok (cachedJwks, st), 0) := by
    simp [JWKSCache.get, hfresh, hcache]
  have h2 : ∀ st' : JWKSState, JWKSCache.get (.ok freshJwks) st' true
      = (.ok (freshJwks, ⟨some freshJwks, false⟩), 1) := by
    intro st'
    simp [JWKSCache.get, JWKSCache.fetch]
  refine ⟨?_, ?_, ?_, ?_⟩
  · rcases hf : _find_rsa_key freshJwks kid with _ | k <;>
      simp [resolveSigningKey, h1, h2, habsent, hf]
  · intro hf
    simp [resolveSigningKey, h1, h2, habsent, hf]
  · intro k hf
    simp [resolveSigningKey, h1, h2, habsent, hf]
  · intro st'
    by_cases he : JWKSCache.isExpired st' = true
    · have h1' : JWKSCache.get (.ok freshJwks) st' false
          = (.ok (freshJwks, ⟨some freshJwks, false⟩), 1) := by
        simp [JWKSCache.get, he, JWKSCache.fetch]
      rcases hf : _find_rsa_key freshJwks kid with _ | k <;>
        simp [resolveSigningKey, h1', h2, hf]
    · have h1' : JWKSCache.get (.ok freshJwks) st' false
          = (.ok (st'.jwks.getD [], st'), 0) := by
        simp only [Bool.not_eq_true] at he
        simp [JWKSCache.get, he]
      rcases hf0 : _find_rsa_key (st'.jwks.getD []) kid with _ | k
      · rcases hf : _find_rsa_key freshJwks kid with _ | k <;>
          simp [resolveSigningKey, h1', h2, hf0, hf]
      · simp [resolveSigningKey, h1', hf0]

theorem unknown_kid_single_forced_refresh_witness :
    (resolveSigningKey (.ok []) ⟨some [⟨"a", 0⟩], false⟩ "b").2 = 1
    ∧ (resolveSigningKey (.ok []) ⟨some [⟨"a", 0⟩], false⟩ "b").1
        = .error ⟨401, "Unable to find appropriate signing key"⟩ := by
  obtain ⟨h1, h2, _⟩ := unknown_kid_single_forced_refresh
    ⟨some [⟨"a", 0⟩], false⟩ [⟨"a", 0⟩] [] "b" rfl rfl rfl
  exact ⟨h1, h2 rfl⟩

/-- C2 counterexample: at a concrete first-login input whose `/userinfo`
fetch fails, `get_current_user` surfaces the failure with status 401 — the
same status as bad-token authentication failures such as the unknown
signing-key error — and not the 503 "upstream unavailable" status that the
signing-key fetch failure uses, so the profile-fetch failure is conflated
with authentication failure rather than surfaced as a distinct upstream
error. -/
theorem profile_fetch_failure_conflated_with_auth_failure :
    (get_current_user ⟨"ext-1", none, none⟩ (fun _ => none) (fun _ => none)
        (.error ()) (fun _ => none)).result
      = .error ⟨401, "Failed to fetch user info from Auth0"⟩
    ∧ (JWKSCache.fetch (.error ()) : Except HTTPErr Jwks)
        = .error ⟨503, "Unable to fetch Auth0 public keys"⟩
    ∧ (resolveSigningKey (.ok []) ⟨some [], false⟩ "k").1
        = .error ⟨401, "Unable to find appropriate signing key"⟩
    ∧ (401 : Nat) ≠ 503 :=
  ⟨rfl, rfl, rfl, by decide⟩

/-- C2 amended: a `SigningKeyFetchFailed` (JWKS fetch failure) is surfaced as
a distinct 503 upstream-unavailable failure, but a `ProfileFetchFailed`
(fallback `/userinfo` fetch failure) is surfaced as a 401 authentication
failure, the same status family as bad-token failures. -/
theorem upstream_failure_surfacing
    (payload : TokenClaims) (ucache : UserCacheState)
    (db : String → Option UserOut) (create : UserCreate → Option UserOut)
    (hc : ucache payload.sub = none) (hdb : db payload.sub = none)
    (hmail : strFalsy payload.email = true) :
    (get_current_user payload ucache db (.error ()) create).result
      = .error ⟨401, "Failed to fetch user info from Auth0"⟩
    ∧ ∀ (st : JWKSState) (force : Bool),
        (force || JWKSCache.isExpired st) = true →
        (JWKSCache.get (.error ()) st force).1
          = .error ⟨503, "Unable to fetch Auth0 public keys"⟩ := by
  constructor
  · simp [get_current_user, hc, hdb, hmail]
  · intro st force h
    simp [JWKSCache.get, h, JWKSCache.fetch]

theorem upstream_failure_surfacing_witness :
    (get_current_user ⟨"ext-2", none, none⟩ (fun _ => none) (fun _ => none)
        (.error ()) (fun _ => none)).result
      = .error ⟨401, "Failed to fetch user info from Auth0"⟩
    ∧ (JWKSCache.get (.error ()) ⟨none, true⟩ false).1
        = .error ⟨503, "Unable to fetch Auth0 public keys"⟩ := by
  obtain ⟨h1, h2⟩ := upstream_failure_surfacing ⟨"ext-2", none, none⟩
    (fun _ => none) (fun _ => none) (fun _ => none) rfl rfl rfl
  exact ⟨h1, h2 ⟨none, true⟩ false rfl⟩

/-- C6: on identity resolution for a first-time caller (nothing cached and no
stored user for the subject): when the token claims carry a (non-empty)
email, no profile call is made and the user is created with that email (name
falling back to the email when the claims carry none); when the claims carry
no usable email, exactly one profile-endpoint call is made; when the profile
supplies the email and neither source supplies a name, the name falls back to
that email; every created user carries the default lowest permission
(viewer); a successfully resolved new user is cached under the subject id;
and when neither path yields an email, resolution fails with the 401
"Unable to retrieve user email" authentication failure. -/
theorem first_login_resolution (payload : TokenClaims)
    (ucache : UserCacheState) (db : String → Option UserOut)
    (userinfo : Except Unit Userinfo) (create : UserCreate → Option UserOut)
    (hc : ucache payload.sub = none) (hdb : db payload.sub = none) :
    (strFalsy payload.email = false →
      (get_current_user payload ucache db userinfo create).userinfoCalls = 0
      ∧ (get_current_user payload ucache db userinfo create).createdWith
        = some (mkUserCreate payload.sub (payload.email.getD "")
            (if strFalsy payload.name then payload.email.getD ""
             else payload.name.getD "")))
    ∧ (strFalsy payload.email = true →
        (get_current_user payload ucache db userinfo create).userinfoCalls
          = 1)
    ∧ (∀ ui, strFalsy payload.email = true → userinfo = .ok ui →
        strFalsy ui.email = false → strFalsy payload.name = true →
        strFalsy ui.name = true →
        (get_current_user payload ucache db userinfo create).createdWith
          = some (mkUserCreate payload.sub (ui.email.getD "")
              (ui.email.getD "")))
    ∧ (∀ d, (get_current_user payload ucache db userinfo
          create).createdWith = some d → d.permissions = Permissions.viewer)
    ∧ (∀ u, (get_current_user payload ucache db userinfo create).result
          = .ok u →
        (get_current_user payload ucache db userinfo create).cache
            payload.sub = some u)
    ∧ (∀ ui, strFalsy payload.email = true → userinfo = .ok ui →
        strFalsy ui.email = true →
        (get_current_user payload ucache db userinfo create).result
          = .error ⟨401, "Unable to retrieve user email"⟩) := by
  refine ⟨?_, ?_, ?_, ?_, ?_, ?_⟩
  · intro hmail
    rcases hcr : create (mkUserCreate payload.sub (payload.email.getD "")
        (if strFalsy payload.name then payload.email.getD ""
         else payload.name.getD "")) with _ | u <;>
      simp [get_current_user, hc, hdb, hmail, hcr]
  · intro hmail
    rcases userinfo with _ | ui
    · simp [get_current_user, hc, hdb, hmail]
    · by_cases hui : strFalsy ui.email = true
      · simp [get_current_user, hc, hdb, hmail, hui]
      · rcases hcr : create (mkUserCreate payload.sub (ui.email.getD "")
            (if strFalsy (if strFalsy payload.name then ui.name
                else payload.name) then ui.email.getD ""
             else (if strFalsy payload.name then ui.name
                else payload.name).getD "")) with _ | u <;>
          simp [get_current_user, hc, hdb, hmail, hui, hcr]
  · intro ui hmail huio huie hname huiname
    subst huio
    rcases hcr : create (mkUserCreate payload.sub (ui.email.getD "")
        (ui.email.getD "")) with _ | u <;>
      simp [get_current_user, hc, hdb, hmail, huie, hname, huiname, hcr]
  · intro d hd
    have : d.permissions = Permissions.viewer := by
      by_cases hmail : strFalsy payload.email = true
      · rcases userinfo with _ | ui
        · simp [get_current_user, hc, hdb, hmail] at hd
        · by_cases hui : strFalsy ui.email = true
          · simp [get_current_user, hc, hdb, hmail, hui] at hd
          · rcases hcr : create (mkUserCreate payload.sub (ui.email.getD "")
                (if strFalsy (if strFalsy payload.name then ui.name
                    else payload.name) then ui.email.getD ""
                 else (if strFalsy payload.name then ui.name
                    else payload.name).getD "")) with _ | u <;>
              · simp [get_current_user, hc, hdb, hmail, hui, hcr] at hd
                rw [← hd]
                rfl
      · rw [Bool.not_eq_true] at hmail
        rcases hcr : create (mkUserCreate payload.sub (payload.email.getD "")
            (if strFalsy payload.name then payload.email.getD ""
             else payload.name.getD "")) with _ | u <;>
          · simp [get_current_user, hc, hdb, hmail, hcr] at hd
            rw [← hd]
            rfl
    exact this
  · intro u hu
    by_cases hmail : strFalsy payload.email = true
    · rcases userinfo with _ | ui
      · simp [get_current_user, hc, hdb, hmail] at hu
      · by_cases hui : strFalsy ui.email = true
        · simp [get_current_user, hc, hdb, hmail, hui] at hu
        · rcases hcr : create (mkUserCreate payload.sub (ui.email.getD "")
              (if strFalsy (if strFalsy payload.name then ui.name
                  else payload.name) then ui.email.getD ""
               else (if strFalsy payload.name then ui.name
                  else payload.name).getD "")) with _ | v
          · simp [get_current_user, hc, hdb, hmail, hui, hcr] at hu
          · simp [get_current_user, hc, hdb, hmail, hui, hcr] at hu ⊢
            simp [UserCache.set, ← hu]
    · rw [Bool.not_eq_true] at hmail
      rcases hcr : create (mkUserCreate payload.sub (payload.email.getD "")
          (if strFalsy payload.name then payload.email.getD ""
           else payload.name.getD "")) with _ | v
      · simp [get_current_user, hc, hdb, hmail, hcr] at hu
      · simp [get_current_user, hc, hdb, hmail, hcr] at hu ⊢
        simp [UserCache.set, ← hu]
  · intro ui hmail huio huie
    subst huio
    simp [get_current_user, hc, hdb, hmail, huie]

theorem first_login_resolution_witness :
    (get_current_user ⟨"ext-1", none, none⟩ (fun _ => none) (fun _ => none)
        (.ok ⟨some "a@b.com", none⟩)
        (fun d => some ⟨1, d.auth0_id, d.email, d.name, d.permissions⟩)
        ).userinfoCalls = 1
    ∧ (get_current_user ⟨"ext-1", none, none⟩ (fun _ => none) (fun _ => none)
        (.ok ⟨some "a@b.com", none⟩)
        (fun d => some ⟨1, d.auth0_id, d.email, d.name, d.permissions⟩)
        ).createdWith
      = some (mkUserCreate "ext-1" "a@b.com" "a@b.com") := by
  obtain ⟨_, h2, h3, _⟩ := first_login_resolution ⟨"ext-1", none, none⟩
    (fun _ => none) (fun _ => none) (.ok ⟨some "a@b.com", none⟩)
    (fun d => some ⟨1, d.auth0_id, d.email, d.name, d.permissions⟩) rfl rfl
  exact ⟨h2 rfl, h3 ⟨some "a@b.com", none⟩ rfl rfl rfl rfl rfl⟩

end Slodi
